import Mathlib

/-!
# Verification of the ICS cluster-api provider VM reconciliation engine

A shallow embedding of the VM reconciliation engine of
`cluster-api-provider-ics` (package `pkg/services/goclient`, file
`service.go`, together with the cluster controller's discovery poller).
Remote-platform collaborators (the compute platform, the secret store,
the in-flight-task report) are modelled as per-call-site oracles packed
into an `Env` record; each reconcile pass is a pure function from the
environment and the resource to the returned `VirtualMachine`, the
returned error, the list of remote calls issued, and the updated stored
status.
-/

namespace ICS

/-! ## Base64 (Go `encoding/base64` StdEncoding)

`getBootstrapData` encodes the secret's bytes with
`base64.StdEncoding.EncodeToString` and `ReconcileVM` decodes them with
`base64.StdEncoding.DecodeString`.  Bytes are modelled as `Nat` values
below 256. -/

def b64Char : Nat → Char
  | 0 => 'A' | 1 => 'B' | 2 => 'C' | 3 => 'D' | 4 => 'E' | 5 => 'F'
  | 6 => 'G' | 7 => 'H' | 8 => 'I' | 9 => 'J' | 10 => 'K' | 11 => 'L'
  | 12 => 'M' | 13 => 'N' | 14 => 'O' | 15 => 'P' | 16 => 'Q' | 17 => 'R'
  | 18 => 'S' | 19 => 'T' | 20 => 'U' | 21 => 'V' | 22 => 'W' | 23 => 'X'
  | 24 => 'Y' | 25 => 'Z' | 26 => 'a' | 27 => 'b' | 28 => 'c' | 29 => 'd'
  | 30 => 'e' | 31 => 'f' | 32 => 'g' | 33 => 'h' | 34 => 'i' | 35 => 'j'
  | 36 => 'k' | 37 => 'l' | 38 => 'm' | 39 => 'n' | 40 => 'o' | 41 => 'p'
  | 42 => 'q' | 43 => 'r' | 44 => 's' | 45 => 't' | 46 => 'u' | 47 => 'v'
  | 48 => 'w' | 49 => 'x' | 50 => 'y' | 51 => 'z' | 52 => '0' | 53 => '1'
  | 54 => '2' | 55 => '3' | 56 => '4' | 57 => '5' | 58 => '6' | 59 => '7'
  | 60 => '8' | 61 => '9' | 62 => '+' | 63 => '/' | _ => '='

def b64Index : Char → Option Nat
  | 'A' => some 0 | 'B' => some 1 | 'C' => some 2 | 'D' => some 3
  | 'E' => some 4 | 'F' => some 5 | 'G' => some 6 | 'H' => some 7
  | 'I' => some 8 | 'J' => some 9 | 'K' => some 10 | 'L' => some 11
  | 'M' => some 12 | 'N' => some 13 | 'O' => some 14 | 'P' => some 15
  | 'Q' => some 16 | 'R' => some 17 | 'S' => some 18 | 'T' => some 19
  | 'U' => some 20 | 'V' => some 21 | 'W' => some 22 | 'X' => some 23
  | 'Y' => some 24 | 'Z' => some 25 | 'a' => some 26 | 'b' => some 27
  | 'c' => some 28 | 'd' => some 29 | 'e' => some 30 | 'f' => some 31
  | 'g' => some 32 | 'h' => some 33 | 'i' => some 34 | 'j' => some 35
  | 'k' => some 36 | 'l' => some 37 | 'm' => some 38 | 'n' => some 39
  | 'o' => some 40 | 'p' => some 41 | 'q' => some 42 | 'r' => some 43
  | 's' => some 44 | 't' => some 45 | 'u' => some 46 | 'v' => some 47
  | 'w' => some 48 | 'x' => some 49 | 'y' => some 50 | 'z' => some 51
  | '0' => some 52 | '1' => some 53 | '2' => some 54 | '3' => some 55
  | '4' => some 56 | '5' => some 57 | '6' => some 58 | '7' => some 59
  | '8' => some 60 | '9' => some 61 | '+' => some 62 | '/' => some 63
  | _ => none

/-- Encoding: three bytes become four alphabet characters; a final partial
group of one or two bytes is padded with `=`. -/
def b64EncodeList : List Nat → List Char
  | [] => []
  | [a] => [b64Char (a / 4), b64Char (a % 4 * 16), '=', '=']
  | [a, b] => [b64Char (a / 4), b64Char (a % 4 * 16 + b / 16), b64Char (b % 16 * 4), '=']
  | a :: b :: c :: rest =>
      b64Char (a / 4) :: b64Char (a % 4 * 16 + b / 16) ::
        b64Char (b % 16 * 4 + c / 64) :: b64Char (c % 64) :: b64EncodeList rest

/-- Decoding: four characters at a time; `=` padding is only accepted in the
final group; trailing bits beyond the encoded bytes are discarded, as Go's
decoder does. -/
def b64DecodeList : List Char → Option (List Nat)
  | [] => some []
  | c0 :: c1 :: c2 :: c3 :: rest =>
      if c2 = '=' then
        match b64Index c0, b64Index c1 with
        | some n0, some n1 =>
            if c3 = '=' ∧ rest = [] then some [n0 * 4 + n1 / 16] else none
        | _, _ => none
      else if c3 = '=' then
        match b64Index c0, b64Index c1, b64Index c2 with
        | some n0, some n1, some n2 =>
            if rest = [] then some [n0 * 4 + n1 / 16, n1 % 16 * 16 + n2 / 4] else none
        | _, _, _ => none
      else
        match b64Index c0, b64Index c1, b64Index c2, b64Index c3, b64DecodeList rest with
        | some n0, some n1, some n2, some n3, some bs =>
            some ((n0 * 4 + n1 / 16) :: (n1 % 16 * 16 + n2 / 4) :: (n2 % 4 * 64 + n3) :: bs)
        | _, _, _, _, _ => none
  | _ => none

/-- `base64.StdEncoding.EncodeToString`. -/
def base64Encode (bs : List Nat) : String := ⟨b64EncodeList bs⟩

/-- `base64.StdEncoding.DecodeString`. -/
def base64Decode (s : String) : Option (List Nat) := b64DecodeList s.data

theorem b64Index_b64Char : ∀ n : Nat, n < 64 → b64Index (b64Char n) = some n := by
  decide

theorem b64Char_ne_eq : ∀ n : Nat, n < 64 → ¬ b64Char n = '=' := by
  decide

example : base64Encode [77, 97, 110] = "TWFu" := by decide

example : base64Decode "TWE=" = some [77, 97] := by decide

/-- Go's decoder inverts Go's encoder on every byte list. -/
theorem b64DecodeList_b64EncodeList :
    ∀ bs : List Nat, (∀ x ∈ bs, x < 256) → b64DecodeList (b64EncodeList bs) = some bs := by
  intro bs
  induction bs using b64EncodeList.induct with
  | case1 => intro _; rfl
  | case2 a =>
    intro h
    have ha : a < 256 := h a (by simp)
    have h0 : a / 4 < 64 := by omega
    have h1 : a % 4 * 16 < 64 := by omega
    simp only [b64EncodeList, b64DecodeList, b64Index_b64Char _ h0, b64Index_b64Char _ h1]
    simp
    omega
  | case3 a b =>
    intro h
    have ha : a < 256 := h a (by simp)
    have hb : b < 256 := h b (by simp)
    have h0 : a / 4 < 64 := by omega
    have h1 : a % 4 * 16 + b / 16 < 64 := by omega
    have h2 : b % 16 * 4 < 64 := by omega
    simp only [b64EncodeList, b64DecodeList, b64Index_b64Char _ h0, b64Index_b64Char _ h1,
      b64Index_b64Char _ h2]
    simp [b64Char_ne_eq _ h2]
    omega
  | case4 a b c rest ih =>
    intro h
    have ha : a < 256 := h a (by simp)
    have hb : b < 256 := h b (by simp)
    have hc : c < 256 := h c (by simp)
    have hrest : ∀ x ∈ rest, x < 256 := fun x hx => h x (by simp [hx])
    have h0 : a / 4 < 64 := by omega
    have h1 : a % 4 * 16 + b / 16 < 64 := by omega
    have h2 : b % 16 * 4 + c / 64 < 64 := by omega
    have h3 : c % 64 < 64 := by omega
    simp only [b64EncodeList, b64DecodeList, b64Index_b64Char _ h0, b64Index_b64Char _ h1,
      b64Index_b64Char _ h2, b64Index_b64Char _ h3,
      if_neg (b64Char_ne_eq _ h2), if_neg (b64Char_ne_eq _ h3), ih hrest]
    simp [b64Char_ne_eq _ h2, b64Char_ne_eq _ h3]
    refine ⟨by omega, by omega, by omega⟩

/-- String-level round trip, as performed by `getBootstrapData` followed by
`ReconcileVM`'s decode. -/
theorem base64Decode_base64Encode (bs : List Nat) (h : ∀ x ∈ bs, x < 256) :
    base64Decode (base64Encode bs) = some bs :=
  b64DecodeList_b64EncodeList bs h

/-! ## Data model (`api/v1beta1` types as used by `service.go`) -/

/-- `infrav1.VirtualMachinePowerState`; `getPowerState` only ever produces
these three values. -/
inductive VirtualMachinePowerState
  | poweredOn
  | poweredOff
  | suspended
  deriving DecidableEq, Repr

/-- The string value of the power-state constant, used by the
`unexpected power state %q` error of `reconcilePowerState`. -/
def VirtualMachinePowerState.str : VirtualMachinePowerState → String
  | .poweredOn => "poweredOn"
  | .poweredOff => "poweredOff"
  | .suspended => "suspended"

/-- `infrav1.VirtualMachineState`: the lifecycle phase of the returned
`VirtualMachine` (Pending / Ready / NotFound). -/
inductive VirtualMachineState
  | pending
  | ready
  | notFound
  deriving DecidableEq, Repr

/-- `infrav1.NetworkStatus`.  `ipAddrs` distinguishes Go's nil slice from a
non-nil one, which `reconcileNetworkStatus` tests. -/
structure NetworkStatus where
  connected : Bool
  ipAddrs : Option (List String)
  macAddr : String
  networkName : String
  deriving DecidableEq, Repr

/-- The VM object returned by the platform's `GetVM`, with the fields
`service.go` reads. -/
structure VMInfo where
  id : String
  uuid : String
  hostID : String
  memoryInByte : Nat
  status : String
  deriving DecidableEq, Repr

/-- The host object returned by `GetHost`, with the fields the capacity
guard reads. -/
structure HostInfo where
  freeMemoryInByte : Nat
  logicFreeMemoryInByte : Nat
  deriving DecidableEq, Repr

/-- A platform task handle (`task.TaskId` is the stored reference). -/
structure ICSTask where
  taskId : String
  deriving DecidableEq, Repr

/-- The result of `WaitForResult` on a task. -/
structure TaskInfo where
  state : String
  errorMsg : String
  deriving DecidableEq, Repr

/-- The two failure modes of the remote-state probe (spec section 4.2):
the VM genuinely does not exist, or a transient (connectivity/auth)
failure. -/
inductive ProbeError
  | notFound
  | transient
  deriving DecidableEq, Repr

/-- A managed object reference for a found VM. -/
structure VMRef where
  value : String
  deriving DecidableEq, Repr

/-- What the platform reports for the stored TaskReference. -/
inductive TaskState
  | pending
  | success
  | errored
  deriving DecidableEq, Repr

/-- `ICSVM.Spec.BootstrapRef` (an object reference into the secret store). -/
structure BootstrapRef where
  nameSpace : String
  name : String
  deriving DecidableEq, Repr

/-- The slice of `ICSVM.Spec` that `service.go` reads. -/
structure ICSVMSpec where
  bootstrapRef : Option BootstrapRef
  deriving DecidableEq, Repr

/-- The slice of `ICSVM.Status` that `service.go` mutates: the stored task
reference (empty string = none stored) and the recorded addresses. -/
structure ICSVMStatus where
  taskRef : String
  addresses : Option (List String)
  deriving DecidableEq, Repr

/-- The reconciled resource. -/
structure ICSVM where
  name : String
  spec : ICSVMSpec
  status : ICSVMStatus
  deriving DecidableEq, Repr

/-- `infrav1.VirtualMachine`, the value returned by each pass. -/
structure VirtualMachine where
  name : String
  state : VirtualMachineState
  uid : String := ""
  biosUUID : String := ""
  network : List NetworkStatus := []
  deriving DecidableEq, Repr

/-- One remote platform call issued during a pass. -/
inductive RemoteCall
  | probe
  | getVM
  | getNet
  | getHost
  | createVM (payload : List Nat)
  | powerOnVM
  | powerOffVM
  | deleteVM
  deriving DecidableEq, Repr

/-- The errors `service.go` can return from a pass, by source branch. -/
inductive VMError
  | bootstrapRefNil
  | bootstrapSecretGetFailed
  | bootstrapValueMissing
  | base64DecodeFailed
  | createVMFailed
  | probeError (e : ProbeError)
  | networkStatusFailed
  | getVMInfoFailed
  | unexpectedPowerState (raw : String)
  | poweringOnFailed
  | powerOnTriggerFailed
  | powerOffTriggerFailed
  | deleteTriggerFailed
  deriving DecidableEq, Repr

/-- Modelled from the spec: `infrav1.PoweringOnFailedReason`, the dedicated
failure reason produced by the capacity guard, is declared in the api
package, which is not under `src/`. -/
def PoweringOnFailedReason : String := "PoweringOnFailed"

/-- The error strings `service.go` builds for the errors it creates itself
(`errors.New` / `errors.Errorf` literals in the source). -/
def VMError.message : VMError → String
  | .bootstrapRefNil => "error retrieving bootstrap data: linked icsvm's bootstrapRef is nil"
  | .bootstrapValueMissing => "error retrieving bootstrap data: secret value key is missing"
  | .poweringOnFailed => PoweringOnFailedReason
  | .unexpectedPowerState raw => "unexpected power state " ++ raw
  | _ => ""

/-- The per-call-site responses of the external collaborators during one
pass.  Each field answers one call site in `service.go`; distinct call
sites get distinct oracles because the remote platform may answer each call
differently. -/
structure Env where
  taskState : Option TaskState
  findVM : Except ProbeError VMRef
  getVMuuid : Except Unit VMInfo
  getNetworkStatus : Except Unit (List NetworkStatus)
  getVMpower : Except Unit VMInfo
  getVMdetails : Except Unit VMInfo
  getHost : Except Unit HostInfo
  powerOnVM : Except Unit ICSTask
  powerOffVM : Except Unit ICSTask
  deleteVM : Except Unit ICSTask
  waitForResult : Option TaskInfo
  secretData : Except Unit (List (String × List Nat))
  createVM : Except Unit Unit
  deriving Repr

/-- Everything one pass produces: the returned `VirtualMachine`, the
returned error, the remote calls issued, and the stored status as left by
the pass. -/
structure PassOut where
  vm : VirtualMachine
  err : Option VMError
  calls : List RemoteCall
  status : ICSVMStatus
  deriving DecidableEq, Repr

/-! ## The engine (`pkg/services/goclient/service.go`) -/

/-- Modelled from the spec: `reconcileInFlightTask` (the Task Guard,
spec section 4.1) is repository code not present under `src/`.  Per the
spec: no stored TaskReference means not in flight; a stored reference whose
task the platform still reports pending means in flight (stop this pass, no
error, no mutation); a reference whose task is reported complete (success or
error) or no longer known is cleared before any new operation, with an
errored task recorded as a condition for the pass only, never blocking
later passes. -/
def reconcileInFlightTask (taskState : Option TaskState) (st : ICSVMStatus) :
    Bool × ICSVMStatus :=
  if st.taskRef = "" then (false, st)
  else
    match taskState with
    | some .pending => (true, st)
    | _ => (false, { st with taskRef := "" })

/-- Modelled from the spec: `isNotFound` is repository code not present
under `src/`; the Remote State Probe contract (spec section 4.2)
distinguishes the not-found outcome from a transient error. -/
def isNotFound : ProbeError → Bool
  | .notFound => true
  | .transient => false

/-- `getPowerState` (service.go:306): maps the raw platform VM status onto
the api power-state constants; STARTED is powered on, STOPPED is powered
off, PAUSED / RESTARTING / PENDING are all mapped to Suspended, anything
else is an `unexpected power state` error. -/
def getPowerState (getVMResult : Except Unit VMInfo) :
    Except VMError VirtualMachinePowerState :=
  match getVMResult with
  | .error _ => .error .getVMInfoFailed
  | .ok vmObj =>
    match vmObj.status with
    | "STARTED" => .ok .poweredOn
    | "STOPPED" => .ok .poweredOff
    | "PAUSED" => .ok .suspended
    | "RESTARTING" => .ok .suspended
    | "PENDING" => .ok .suspended
    | other => .error (.unexpectedPowerState other)

/-- `getBootstrapData` (service.go:348): requires `Spec.BootstrapRef`, reads
the referenced secret, requires its `value` key, and returns the value
base64-encoded. -/
def getBootstrapData (spec : ICSVMSpec)
    (secretData : Except Unit (List (String × List Nat))) : Except VMError String :=
  match spec.bootstrapRef with
  | none => .error .bootstrapRefNil
  | some _ =>
    match secretData with
    | .error _ => .error .bootstrapSecretGetFailed
    | .ok data =>
      match data.lookup "value" with
      | none => .error .bootstrapValueMissing
      | some value => .ok (base64Encode value)

/-- `reconcileUUID` (service.go:297): best-effort; a failed `GetVM` leaves
the state untouched, otherwise the VM's ID and UUID are adopted. -/
def reconcileUUID (getVMResult : Except Unit VMInfo) (vm : VirtualMachine) :
    VirtualMachine :=
  match getVMResult with
  | .error _ => vm
  | .ok info => { vm with uid := info.id, biosUUID := info.uuid }

/-- `reconcileNetworkStatus` (service.go:183): a failed status read is
returned as an error; otherwise the reported status is adopted into the
returned VM, and — when no addresses were previously recorded and the first
attachment reports a non-nil address list — the addresses are adopted into
the stored status (`UpdateNetworkInfo` is repository code not under `src/`;
modelled from the spec: "adopt them into status").  The immediate
control-plane patch is best-effort and does not change the outcome. -/
def reconcileNetworkStatus (netResult : Except Unit (List NetworkStatus))
    (st : ICSVMStatus) : Except VMError (List NetworkStatus × ICSVMStatus) :=
  match netResult with
  | .error _ => .error .networkStatusFailed
  | .ok netStatus =>
    let st' :=
      match netStatus with
      | [] => st
      | n0 :: _ =>
        if st.addresses = none then
          match n0.ipAddrs with
          | some addrs => { st with addresses := some addrs }
          | none => st
        else st
    .ok (netStatus, st')

/-- `reconcilePowerState` (service.go:203).  Returns (ok, error, calls
issued, status): PoweredOff reads the VM's details and its host's capacity
(either read failing is swallowed as `(false, nil)`); the capacity guard
fails with `PoweringOnFailedReason` when the memory requirement reaches
either free-memory figure; otherwise power-on is issued, its task stored,
and the brief wait classifies an immediate ERROR as
`PoweringOnFailedReason`.  PoweredOn reports ok.  Any other power state
falls to the `unexpected power state` error. -/
def reconcilePowerState (env : Env) (st : ICSVMStatus) :
    Bool × Option VMError × List RemoteCall × ICSVMStatus :=
  match getPowerState env.getVMpower with
  | .error e => (false, some e, [.getVM], st)
  | .ok .poweredOff =>
    match env.getVMdetails with
    | .error _ => (false, none, [.getVM, .getVM], st)
    | .ok vmInfo =>
      match env.getHost with
      | .error _ => (false, none, [.getVM, .getVM, .getHost], st)
      | .ok host =>
        if vmInfo.memoryInByte ≥ host.freeMemoryInByte ∨
            vmInfo.memoryInByte ≥ host.logicFreeMemoryInByte then
          (false, some .poweringOnFailed, [.getVM, .getVM, .getHost], st)
        else
          match env.powerOnVM with
          | .error _ =>
            (false, some .powerOnTriggerFailed, [.getVM, .getVM, .getHost, .powerOnVM], st)
          | .ok task =>
            let st' := { st with taskRef := task.taskId }
            match env.waitForResult with
            | some info =>
              if info.state = "ERROR" then
                (false, some .poweringOnFailed, [.getVM, .getVM, .getHost, .powerOnVM], st')
              else
                (false, none, [.getVM, .getVM, .getHost, .powerOnVM], st')
            | none => (false, none, [.getVM, .getVM, .getHost, .powerOnVM], st')
  | .ok .poweredOn => (true, none, [.getVM], st)
  | .ok .suspended =>
    (false, some (.unexpectedPowerState VirtualMachinePowerState.suspended.str), [.getVM], st)

/-- `ReconcileVM` (service.go:46): in-flight guard, probe; on probe failure
(any failure) fetch and decode bootstrap data and issue the create; on a
found VM run UUID sync, network sync, then power sync, and promote the
phase to Ready only when power sync reports ok. -/
def ReconcileVM (env : Env) (icsvm : ICSVM) : PassOut :=
  let vm : VirtualMachine := { name := icsvm.name, state := .pending }
  match reconcileInFlightTask env.taskState icsvm.status with
  | (true, st) => { vm := vm, err := none, calls := [], status := st }
  | (false, st) =>
    match env.findVM with
    | .error _ =>
      match getBootstrapData icsvm.spec env.secretData with
      | .error e => { vm := vm, err := some e, calls := [.probe], status := st }
      | .ok metadata =>
        match base64Decode metadata with
        | none =>
          { vm := vm, err := some .base64DecodeFailed, calls := [.probe], status := st }
        | some metadataBytes =>
          { vm := vm,
            err := match env.createVM with
              | .ok _ => none
              | .error _ => some .createVMFailed,
            calls := [.probe, .createVM metadataBytes], status := st }
    | .ok _ =>
      let vm1 := reconcileUUID env.getVMuuid vm
      match reconcileNetworkStatus env.getNetworkStatus st with
      | .error e =>
        { vm := vm1, err := some e, calls := [.probe, .getVM, .getNet], status := st }
      | .ok (netStatus, st1) =>
        let vm2 := { vm1 with network := netStatus }
        match reconcilePowerState env st1 with
        | (ok, perr, pcalls, st2) =>
          if perr.isSome || !ok then
            { vm := vm2, err := perr, calls := [.probe, .getVM, .getNet] ++ pcalls,
              status := st2 }
          else
            { vm := { vm2 with state := .ready }, err := none,
              calls := [.probe, .getVM, .getNet] ++ pcalls, status := st2 }

/-- `DestroyVM` (service.go:110): in-flight guard, probe; a not-found probe
is the desired terminal state (phase NotFound, no error); a found VM that
reports PoweredOn gets a power-off (task stored, no error); otherwise the
delete (force, cascade) is issued and its task stored. -/
def DestroyVM (env : Env) (icsvm : ICSVM) : PassOut :=
  let vm : VirtualMachine := { name := icsvm.name, state := .pending }
  match reconcileInFlightTask env.taskState icsvm.status with
  | (true, st) => { vm := vm, err := none, calls := [], status := st }
  | (false, st) =>
    match env.findVM with
    | .error e =>
      if isNotFound e then
        { vm := { vm with state := .notFound }, err := none, calls := [.probe], status := st }
      else
        { vm := vm, err := some (.probeError e), calls := [.probe], status := st }
    | .ok _ =>
      match getPowerState env.getVMpower with
      | .error e => { vm := vm, err := some e, calls := [.probe, .getVM], status := st }
      | .ok powerState =>
        if powerState = .poweredOn then
          match env.powerOffVM with
          | .error _ =>
            { vm := vm, err := some .powerOffTriggerFailed,
              calls := [.probe, .getVM, .powerOffVM], status := st }
          | .ok task =>
            { vm := vm, err := none, calls := [.probe, .getVM, .powerOffVM],
              status := { st with taskRef := task.taskId } }
        else
          match env.deleteVM with
          | .error _ =>
            { vm := vm, err := some .deleteTriggerFailed,
              calls := [.probe, .getVM, .deleteVM], status := st }
          | .ok task =>
            { vm := vm, err := none, calls := [.probe, .getVM, .deleteVM],
              status := { st with taskRef := task.taskId } }

/-! ## The control-plane discovery poller (cluster controller) -/

abbrev ClusterUID := String

/-- The guarded check-and-insert of `reconcileICSClusterWhenAPIServerIsOnline`
(cluster controller): skip when the control plane is already marked
initialized; under the registry mutex, skip when an entry for the cluster
identity is already present; otherwise insert the identity and start the
poller goroutine.  The mutex-held critical section is modelled as one atomic
step.  Returns the new registry and whether a poller goroutine was
started. -/
def reconcileICSClusterWhenAPIServerIsOnline (controlPlaneInitialized : Bool)
    (apiServerTriggers : List ClusterUID) (uid : ClusterUID) :
    List ClusterUID × Bool :=
  if controlPlaneInitialized then (apiServerTriggers, false)
  else if uid ∈ apiServerTriggers then (apiServerTriggers, false)
  else (uid :: apiServerTriggers, true)

/-- First index below `fuel` at which the polled condition holds
(`wait.PollImmediateInfinite`, with explicit fuel making the unbounded poll
loop a total function). -/
def pollUntil (cond : Nat → Bool) : Nat → Option Nat
  | 0 => none
  | n + 1 => if cond 0 then some 0 else (pollUntil (fun i => cond (i + 1)) n).map (· + 1)

/-- The poller goroutine body: phase 1 polls the API-server-online condition
and then emits one synthetic trigger event; phase 2 polls the
control-plane-initialized condition, and only then removes the cluster
identity from the registry.  `apiOnline i` / `initialized i` are the
observations the i-th poll of each phase would make; the result is the
final registry, whether the trigger event was emitted, and whether the
poller retired (removed its entry). -/
def pollerBody (apiOnline initialized : Nat → Bool) (fuel : Nat)
    (apiServerTriggers : List ClusterUID) (uid : ClusterUID) :
    List ClusterUID × Bool × Bool :=
  match pollUntil apiOnline fuel with
  | none => (apiServerTriggers, false, false)
  | some _ =>
    match pollUntil initialized fuel with
    | none => (apiServerTriggers, true, false)
    | some _ => (apiServerTriggers.erase uid, true, true)

theorem pollUntil_spec :
    ∀ (fuel : Nat) (cond : Nat → Bool) (i : Nat),
      pollUntil cond fuel = some i → cond i = true := by
  intro fuel
  induction fuel with
  | zero => intro cond i h; simp [pollUntil] at h
  | succ n ih =>
    intro cond i h
    simp only [pollUntil] at h
    by_cases h0 : cond 0
    . simp [h0] at h; subst h; exact h0
    . rw [if_neg (by simp [h0])] at h
      obtain ⟨j, hj1, hj2⟩ := Option.map_eq_some'.mp h
      subst hj2
      exact ih _ j hj1

/-! ## Sample concrete inputs used by witnesses and counterexamples -/

def sampleVMInfo (st : String) : VMInfo :=
  { id := "vm-1", uuid := "uuid-1", hostID := "host-1", memoryInByte := 4, status := st }

def sampleHost : HostInfo := { freeMemoryInByte := 8, logicFreeMemoryInByte := 8 }

def sampleTask : ICSTask := { taskId := "task-1" }

def sampleStatus : ICSVMStatus := { taskRef := "", addresses := none }

def sampleSpec : ICSVMSpec :=
  { bootstrapRef := some { nameSpace := "ns", name := "m1-bootstrap" } }

def sampleVM : ICSVM := { name := "m1", spec := sampleSpec, status := sampleStatus }

/-- A benign environment: VM found, powered on, healthy collaborators. -/
def baseEnv : Env :=
  { taskState := none
    findVM := .ok { value := "ref-1" }
    getVMuuid := .ok (sampleVMInfo "STARTED")
    getNetworkStatus := .ok []
    getVMpower := .ok (sampleVMInfo "STARTED")
    getVMdetails := .ok (sampleVMInfo "STOPPED")
    getHost := .ok sampleHost
    powerOnVM := .ok sampleTask
    powerOffVM := .ok sampleTask
    deleteVM := .ok sampleTask
    waitForResult := none
    secretData := .ok [("value", [104, 105])]
    createVM := .ok () }

/-! ## Helper lemmas -/

theorem getPowerState_suspended (res : Except Unit VMInfo) (info : VMInfo)
    (hres : res = .ok info)
    (hstatus : info.status = "PAUSED" ∨ info.status = "RESTARTING" ∨
      info.status = "PENDING") :
    getPowerState res = .ok .suspended := by
  subst hres
  rcases hstatus with h | h | h <;> simp [getPowerState, h]

theorem reconcilePowerState_suspended (env : Env) (st : ICSVMStatus) (info : VMInfo)
    (hpow : env.getVMpower = .ok info)
    (hstatus : info.status = "PAUSED" ∨ info.status = "RESTARTING" ∨
      info.status = "PENDING") :
    reconcilePowerState env st =
      (false, some (.unexpectedPowerState "suspended"), [.getVM], st) := by
  unfold reconcilePowerState
  rw [getPowerState_suspended env.getVMpower info hpow hstatus]
  rfl

theorem reconcileUUID_state (res : Except Unit VMInfo) (vm : VirtualMachine) :
    (reconcileUUID res vm).state = vm.state := by
  unfold reconcileUUID
  cases res <;> rfl

theorem reconcileUUID_name (res : Except Unit VMInfo) (vm : VirtualMachine) :
    (reconcileUUID res vm).name = vm.name := by
  unfold reconcileUUID
  cases res <;> rfl

/-! ## Claim C1 -/

def envC1 : Env := { baseEnv with getVMpower := .ok (sampleVMInfo "PAUSED") }

/-- C1 counterexample: a VM whose remote status is PAUSED is reported as the
transitional power state Suspended, yet ReconcileVM returns a non-nil
`unexpected power state` error for the pass (the claim says it returns
Pending with no error). -/
theorem C1_counterexample :
    (getPowerState envC1.getVMpower).toOption = some VirtualMachinePowerState.suspended ∧
    (ReconcileVM envC1 sampleVM).vm.state = .pending ∧
    (ReconcileVM envC1 sampleVM).err = some (.unexpectedPowerState "suspended") := by
  decide

/-- C1 (amended): for every VM whose remote power state is reported as one
of the transitional values (raw PAUSED / RESTARTING / PENDING, all mapped
to Suspended), ReconcileVM returns phase Pending with a NON-nil error for
the pass: the transitional states fall through to the same
`unexpected power state` terminal error as an unrecognized remote value,
and no power operation is issued. -/
theorem C1_transitional_is_error (env : Env) (icsvm : ICSVM) (st : ICSVMStatus)
    (info : VMInfo)
    (hguard : reconcileInFlightTask env.taskState icsvm.status = (false, st))
    (hfind : ∃ r, env.findVM = .ok r)
    (hnet : ∃ ns, env.getNetworkStatus = .ok ns)
    (hpow : env.getVMpower = .ok info)
    (hstatus : info.status = "PAUSED" ∨ info.status = "RESTARTING" ∨
      info.status = "PENDING") :
    (ReconcileVM env icsvm).vm.state = .pending ∧
    (ReconcileVM env icsvm).err = some (.unexpectedPowerState "suspended") ∧
    RemoteCall.powerOnVM ∉ (ReconcileVM env icsvm).calls ∧
    RemoteCall.powerOffVM ∉ (ReconcileVM env icsvm).calls := by
  obtain ⟨r, hr⟩ := hfind
  obtain ⟨ns, hns⟩ := hnet
  have hps : ∀ st0 : ICSVMStatus, reconcilePowerState env st0 =
      (false, some (.unexpectedPowerState "suspended"), [.getVM], st0) :=
    fun st0 => reconcilePowerState_suspended env st0 info hpow hstatus
  simp only [ReconcileVM, hguard, hr, reconcileNetworkStatus, hns, hps]
  simp [reconcileUUID_state]

theorem C1_transitional_is_error_witness :
    (ReconcileVM envC1 sampleVM).vm.state = .pending ∧
    (ReconcileVM envC1 sampleVM).err = some (.unexpectedPowerState "suspended") ∧
    RemoteCall.powerOnVM ∉ (ReconcileVM envC1 sampleVM).calls ∧
    RemoteCall.powerOffVM ∉ (ReconcileVM envC1 sampleVM).calls :=
  C1_transitional_is_error envC1 sampleVM sampleStatus (sampleVMInfo "PAUSED")
    rfl ⟨{ value := "ref-1" }, rfl⟩ ⟨[], rfl⟩ rfl (Or.inl rfl)

/-! ## Claim C5 -/

/-- C5: with a stored TaskReference that the platform reports as still
pending, both ReconcileVM and DestroyVM return immediately: phase Pending,
no error, the stored status unchanged, and no remote call of any kind
issued in the pass. -/
theorem C5_task_guard_exclusivity (env : Env) (icsvm : ICSVM)
    (href : icsvm.status.taskRef ≠ "")
    (hpending : env.taskState = some .pending) :
    ReconcileVM env icsvm =
      { vm := { name := icsvm.name, state := .pending }, err := none, calls := [],
        status := icsvm.status } ∧
    DestroyVM env icsvm =
      { vm := { name := icsvm.name, state := .pending }, err := none, calls := [],
        status := icsvm.status } := by
  have hg : reconcileInFlightTask env.taskState icsvm.status = (true, icsvm.status) := by
    unfold reconcileInFlightTask
    rw [if_neg href, hpending]
  refine ⟨?_, ?_⟩ <;> simp only [ReconcileVM, DestroyVM, hg]

def envC5 : Env := { baseEnv with taskState := some .pending }

def sampleVMC5 : ICSVM :=
  { sampleVM with status := { taskRef := "task-0", addresses := none } }

theorem C5_task_guard_exclusivity_witness :
    ReconcileVM envC5 sampleVMC5 =
      { vm := { name := "m1", state := .pending }, err := none, calls := [],
        status := { taskRef := "task-0", addresses := none } } ∧
    DestroyVM envC5 sampleVMC5 =
      { vm := { name := "m1", state := .pending }, err := none, calls := [],
        status := { taskRef := "task-0", addresses := none } } :=
  C5_task_guard_exclusivity envC5 sampleVMC5 (by decide) rfl

/-! ## Claim C6 -/

/-- C6: a DestroyVM pass with no in-flight task whose probe reports the
remote VM as not found returns phase NotFound with no error on that first
call, issuing only the probe — no power-off and no delete. -/
theorem C6_notfound_convergence (env : Env) (icsvm : ICSVM) (st : ICSVMStatus)
    (hguard : reconcileInFlightTask env.taskState icsvm.status = (false, st))
    (hfind : env.findVM = .error .notFound) :
    (DestroyVM env icsvm).vm.state = .notFound ∧
    (DestroyVM env icsvm).err = none ∧
    (DestroyVM env icsvm).calls = [.probe] ∧
    RemoteCall.powerOffVM ∉ (DestroyVM env icsvm).calls ∧
    RemoteCall.deleteVM ∉ (DestroyVM env icsvm).calls := by
  simp only [DestroyVM, hguard, hfind, isNotFound]
  simp

def envC6 : Env := { baseEnv with findVM := .error .notFound }

theorem C6_notfound_convergence_witness :
    (DestroyVM envC6 sampleVM).vm.state = .notFound ∧
    (DestroyVM envC6 sampleVM).err = none ∧
    (DestroyVM envC6 sampleVM).calls = [.probe] ∧
    RemoteCall.powerOffVM ∉ (DestroyVM envC6 sampleVM).calls ∧
    RemoteCall.deleteVM ∉ (DestroyVM envC6 sampleVM).calls :=
  C6_notfound_convergence envC6 sampleVM sampleStatus rfl rfl

/-! ## Claim C2 -/

def envC2 : Env := { baseEnv with findVM := .error .transient }

/-- C2 counterexample: when the probe fails with a transient error (not
not-found) and the bootstrap secret is readable, ReconcileVM issues a
create operation and returns no error at all — the claim says no create is
issued and the error is returned as retryable. -/
theorem C2_counterexample :
    envC2.findVM.toOption = none ∧ isNotFound .transient = false ∧
    (ReconcileVM envC2 sampleVM).calls = [.probe, .createVM [104, 105]] ∧
    (ReconcileVM envC2 sampleVM).err = none := by
  decide

/-- C2 (amended): ReconcileVM does not distinguish a transient probe
failure from not-found: on ANY probe error it takes the create path, so
with a readable bootstrap secret a create operation IS issued, and the
probe error is not returned (the only error the pass can still return is
the create call's own); the stored status is not mutated. -/
theorem C2_transient_probe_creates (env : Env) (icsvm : ICSVM) (st : ICSVMStatus)
    (v : List Nat)
    (hguard : reconcileInFlightTask env.taskState icsvm.status = (false, st))
    (hfind : env.findVM = .error .transient)
    (href : icsvm.spec.bootstrapRef ≠ none)
    (hsec : ∃ data, env.secretData = .ok data ∧ data.lookup "value" = some v)
    (hv : ∀ x ∈ v, x < 256) :
    (ReconcileVM env icsvm).calls = [.probe, .createVM v] ∧
    (ReconcileVM env icsvm).status = st ∧
    ∀ e, (ReconcileVM env icsvm).err = some e → e = .createVMFailed := by
  obtain ⟨data, hdata, hval⟩ := hsec
  obtain ⟨ref, href⟩ := Option.ne_none_iff_exists'.mp href
  have hboot : getBootstrapData icsvm.spec env.secretData = .ok (base64Encode v) := by
    simp [getBootstrapData, href, hdata, hval]
  simp only [ReconcileVM, hguard, hfind, hboot, base64Decode_base64Encode v hv]
  refine ⟨by trivial, by trivial, ?_⟩
  intro e he
  cases hc : env.createVM with
  | ok u => rw [hc] at he; simp at he
  | error u => rw [hc] at he; simp at he; exact he.symm

theorem C2_transient_probe_creates_witness :
    (ReconcileVM envC2 sampleVM).calls = [.probe, .createVM [104, 105]] ∧
    (ReconcileVM envC2 sampleVM).status = sampleStatus ∧
    ∀ e, (ReconcileVM envC2 sampleVM).err = some e → e = .createVMFailed :=
  C2_transient_probe_creates envC2 sampleVM sampleStatus [104, 105] rfl rfl
    (by decide) ⟨[("value", [104, 105])], rfl, rfl⟩ (by decide)

/-! ## Claim C7 -/

/-- C7: for a new resource (probe failed) whose spec has no bootstrap
reference, ReconcileVM returns the error naming the nil bootstrapRef and
issues no create call; likewise when the referenced secret lacks the
`value` key, the `value key is missing` error is returned and no create
call is issued. -/
theorem C7_missing_bootstrap (env : Env) (icsvm : ICSVM) (st : ICSVMStatus)
    (e : ProbeError)
    (hguard : reconcileInFlightTask env.taskState icsvm.status = (false, st))
    (hfind : env.findVM = .error e) :
    (icsvm.spec.bootstrapRef = none →
      (ReconcileVM env icsvm).err = some .bootstrapRefNil ∧
      VMError.bootstrapRefNil.message =
        "error retrieving bootstrap data: linked icsvm's bootstrapRef is nil" ∧
      (ReconcileVM env icsvm).calls = [.probe]) ∧
    (∀ ref data, icsvm.spec.bootstrapRef = some ref → env.secretData = .ok data →
      data.lookup "value" = none →
      (ReconcileVM env icsvm).err = some .bootstrapValueMissing ∧
      (ReconcileVM env icsvm).calls = [.probe]) := by
  constructor
  . intro hnil
    have hboot : getBootstrapData icsvm.spec env.secretData = .error .bootstrapRefNil := by
      simp [getBootstrapData, hnil]
    simp [ReconcileVM, hguard, hfind, hboot, VMError.message]
  . intro ref data href hdata hnoval
    have hboot : getBootstrapData icsvm.spec env.secretData =
        .error .bootstrapValueMissing := by
      simp [getBootstrapData, href, hdata, hnoval]
    simp [ReconcileVM, hguard, hfind, hboot]

def sampleVMnoBoot : ICSVM :=
  { name := "m1", spec := { bootstrapRef := none }, status := sampleStatus }

theorem C7_missing_bootstrap_witness :
    (ReconcileVM envC2 sampleVMnoBoot).err = some .bootstrapRefNil ∧
    VMError.bootstrapRefNil.message =
      "error retrieving bootstrap data: linked icsvm's bootstrapRef is nil" ∧
    (ReconcileVM envC2 sampleVMnoBoot).calls = [.probe] :=
  (C7_missing_bootstrap envC2 sampleVMnoBoot sampleStatus .transient rfl rfl).1 rfl

/-! ## Claim C8 -/

/-- C8: for a new resource (probe failed) with a bootstrap secret holding
key `value`, ReconcileVM issues exactly one create call whose payload is
exactly the secret's `value` bytes — the base64 encode performed by
getBootstrapData composed with the decode in ReconcileVM is the identity —
and the returned phase is Pending. -/
theorem C8_happy_path_create (env : Env) (icsvm : ICSVM) (st : ICSVMStatus)
    (e : ProbeError) (ref : BootstrapRef) (data : List (String × List Nat))
    (v : List Nat)
    (hguard : reconcileInFlightTask env.taskState icsvm.status = (false, st))
    (hfind : env.findVM = .error e)
    (href : icsvm.spec.bootstrapRef = some ref)
    (hsec : env.secretData = .ok data)
    (hval : data.lookup "value" = some v)
    (hv : ∀ x ∈ v, x < 256) :
    getBootstrapData icsvm.spec env.secretData = .ok (base64Encode v) ∧
    base64Decode (base64Encode v) = some v ∧
    (ReconcileVM env icsvm).calls = [.probe, .createVM v] ∧
    ((ReconcileVM env icsvm).calls.count (.createVM v)) = 1 ∧
    (ReconcileVM env icsvm).vm.state = .pending := by
  have hboot : getBootstrapData icsvm.spec env.secretData = .ok (base64Encode v) := by
    simp [getBootstrapData, href, hsec, hval]
  have hdec := base64Decode_base64Encode v hv
  refine ⟨hboot, hdec, ?_⟩
  simp only [ReconcileVM, hguard, hfind, hboot, hdec]
  cases env.createVM <;> simp

def sampleSecretBytes : List Nat := [104, 101, 108, 108, 111]

def envC8 : Env :=
  { baseEnv with findVM := .error .notFound
                 secretData := .ok [("value", sampleSecretBytes)] }

theorem C8_happy_path_create_witness :
    getBootstrapData sampleVM.spec envC8.secretData = .ok (base64Encode sampleSecretBytes) ∧
    base64Decode (base64Encode sampleSecretBytes) = some sampleSecretBytes ∧
    (ReconcileVM envC8 sampleVM).calls = [.probe, .createVM sampleSecretBytes] ∧
    ((ReconcileVM envC8 sampleVM).calls.count (.createVM sampleSecretBytes)) = 1 ∧
    (ReconcileVM envC8 sampleVM).vm.state = .pending :=
  C8_happy_path_create envC8 sampleVM sampleStatus .notFound
    { nameSpace := "ns", name := "m1-bootstrap" } [("value", sampleSecretBytes)]
    sampleSecretBytes rfl rfl rfl rfl rfl (by decide)

/-! ## Claim C3 -/

theorem getPowerState_poweredOff (res : Except Unit VMInfo) (info : VMInfo)
    (hres : res = .ok info) (h : info.status = "STOPPED") :
    getPowerState res = .ok .poweredOff := by
  subst hres
  simp [getPowerState, h]

theorem getPowerState_poweredOn (res : Except Unit VMInfo) (info : VMInfo)
    (hres : res = .ok info) (h : info.status = "STARTED") :
    getPowerState res = .ok .poweredOn := by
  subst hres
  simp [getPowerState, h]

/-- The error outcome of the PoweredOff branch once power-on has been
issued: the trigger may fail, or the brief wait may classify an immediate
ERROR as `PoweringOnFailedReason`. -/
def powerOnPassErr (env : Env) : Option VMError :=
  match env.powerOnVM with
  | .error _ => some .powerOnTriggerFailed
  | .ok _ =>
    match env.waitForResult with
    | some info => if info.state = "ERROR" then some .poweringOnFailed else none
    | none => none

/-- The status left by the PoweredOff branch once power-on has been issued:
the power-on task is stored as the TaskReference. -/
def powerOnPassStatus (env : Env) (st : ICSVMStatus) : ICSVMStatus :=
  match env.powerOnVM with
  | .error _ => st
  | .ok task => { st with taskRef := task.taskId }

theorem reconcilePowerState_capacity_blocked (env : Env) (st : ICSVMStatus)
    (pinfo dinfo : VMInfo) (host : HostInfo)
    (hpow : env.getVMpower = .ok pinfo) (hpoff : pinfo.status = "STOPPED")
    (hdet : env.getVMdetails = .ok dinfo) (hhost : env.getHost = .ok host)
    (hm : dinfo.memoryInByte ≥ host.freeMemoryInByte ∨
      dinfo.memoryInByte ≥ host.logicFreeMemoryInByte) :
    reconcilePowerState env st =
      (false, some .poweringOnFailed, [.getVM, .getVM, .getHost], st) := by
  unfold reconcilePowerState
  rw [getPowerState_poweredOff env.getVMpower pinfo hpow hpoff]
  simp only [hdet, hhost]
  rw [if_pos hm]

theorem reconcilePowerState_capacity_ok (env : Env) (st : ICSVMStatus)
    (pinfo dinfo : VMInfo) (host : HostInfo)
    (hpow : env.getVMpower = .ok pinfo) (hpoff : pinfo.status = "STOPPED")
    (hdet : env.getVMdetails = .ok dinfo) (hhost : env.getHost = .ok host)
    (hm : dinfo.memoryInByte < host.freeMemoryInByte ∧
      dinfo.memoryInByte < host.logicFreeMemoryInByte) :
    reconcilePowerState env st =
      (false, powerOnPassErr env, [.getVM, .getVM, .getHost, .powerOnVM],
        powerOnPassStatus env st) := by
  unfold reconcilePowerState
  rw [getPowerState_poweredOff env.getVMpower pinfo hpow hpoff]
  simp only [hdet, hhost]
  rw [if_neg (by omega)]
  unfold powerOnPassErr powerOnPassStatus
  rcases hpo : env.powerOnVM with u | task
  . rfl
  . rcases hw : env.waitForResult with _ | info
    . rfl
    . by_cases he : info.state = "ERROR"
      . simp [he]
      . simp [he]

/-- C3: for a VM probed as PoweredOff whose details and host capacity are
read successfully, if the memory requirement reaches either the host free
memory or its logical free memory, no power-on is issued and the pass
fails with `PoweringOnFailedReason`; if it is below both, power-on is
issued exactly once in the pass. -/
theorem C3_capacity_guard (env : Env) (icsvm : ICSVM) (st : ICSVMStatus)
    (r : VMRef) (ns : List NetworkStatus) (pinfo dinfo : VMInfo) (host : HostInfo)
    (hguard : reconcileInFlightTask env.taskState icsvm.status = (false, st))
    (hfind : env.findVM = .ok r)
    (hnet : env.getNetworkStatus = .ok ns)
    (hpow : env.getVMpower = .ok pinfo) (hpoff : pinfo.status = "STOPPED")
    (hdet : env.getVMdetails = .ok dinfo) (hhost : env.getHost = .ok host) :
    (dinfo.memoryInByte ≥ host.freeMemoryInByte ∨
        dinfo.memoryInByte ≥ host.logicFreeMemoryInByte →
      RemoteCall.powerOnVM ∉ (ReconcileVM env icsvm).calls ∧
      (ReconcileVM env icsvm).err = some .poweringOnFailed ∧
      VMError.poweringOnFailed.message = PoweringOnFailedReason) ∧
    (dinfo.memoryInByte < host.freeMemoryInByte ∧
        dinfo.memoryInByte < host.logicFreeMemoryInByte →
      (ReconcileVM env icsvm).calls.count .powerOnVM = 1) := by
  constructor
  . intro hm
    have hps : ∀ st0 : ICSVMStatus, reconcilePowerState env st0 =
        (false, some .poweringOnFailed, [.getVM, .getVM, .getHost], st0) :=
      fun st0 => reconcilePowerState_capacity_blocked env st0 pinfo dinfo host
        hpow hpoff hdet hhost hm
    simp only [ReconcileVM, hguard, hfind, reconcileNetworkStatus, hnet, hps]
    simp [VMError.message]
  . intro hm
    have hps : ∀ st0 : ICSVMStatus, reconcilePowerState env st0 =
        (false, powerOnPassErr env, [.getVM, .getVM, .getHost, .powerOnVM],
          powerOnPassStatus env st0) :=
      fun st0 => reconcilePowerState_capacity_ok env st0 pinfo dinfo host
        hpow hpoff hdet hhost hm
    simp only [ReconcileVM, hguard, hfind, reconcileNetworkStatus, hnet, hps]
    split <;> simp [List.count_cons]

def sampleBigVMInfo : VMInfo :=
  { id := "vm-1", uuid := "uuid-1", hostID := "host-1", memoryInByte := 16,
    status := "STOPPED" }

def envC3 : Env :=
  { baseEnv with getVMpower := .ok (sampleVMInfo "STOPPED")
                 getVMdetails := .ok sampleBigVMInfo }

theorem C3_capacity_guard_witness :
    RemoteCall.powerOnVM ∉ (ReconcileVM envC3 sampleVM).calls ∧
    (ReconcileVM envC3 sampleVM).err = some .poweringOnFailed ∧
    VMError.poweringOnFailed.message = PoweringOnFailedReason :=
  (C3_capacity_guard envC3 sampleVM sampleStatus { value := "ref-1" } []
    (sampleVMInfo "STOPPED") sampleBigVMInfo sampleHost
    rfl rfl rfl rfl rfl rfl rfl).1 (by decide)

def envC3ok : Env := { baseEnv with getVMpower := .ok (sampleVMInfo "STOPPED") }

example : (ReconcileVM envC3ok sampleVM).calls.count .powerOnVM = 1 := by decide

/-! ## Claim C10 -/

theorem reconcilePowerState_details_failed (env : Env)
    (pinfo : VMInfo)
    (hpow : env.getVMpower = .ok pinfo) (hpoff : pinfo.status = "STOPPED")
    (hdet : env.getVMdetails = .error ()) :
    ∀ st0 : ICSVMStatus, reconcilePowerState env st0 =
      (false, none, [.getVM, .getVM], st0) := by
  intro st0
  unfold reconcilePowerState
  rw [getPowerState_poweredOff env.getVMpower pinfo hpow hpoff]
  simp only [hdet]

theorem reconcilePowerState_host_failed (env : Env)
    (pinfo dinfo : VMInfo)
    (hpow : env.getVMpower = .ok pinfo) (hpoff : pinfo.status = "STOPPED")
    (hdet : env.getVMdetails = .ok dinfo) (hhost : env.getHost = .error ()) :
    ∀ st0 : ICSVMStatus, reconcilePowerState env st0 =
      (false, none, [.getVM, .getVM, .getHost], st0) := by
  intro st0
  unfold reconcilePowerState
  rw [getPowerState_poweredOff env.getVMpower pinfo hpow hpoff]
  simp only [hdet, hhost]

/-- C10: when the pass reaches power sync with the VM reported PoweredOff
and either the VM-details read or the host-capacity read fails, ReconcileVM
returns phase Pending with a nil error — the read failure is swallowed, not
surfaced as a retryable error — and no power-on is issued. -/
theorem C10_swallowed_read_failure (env : Env) (icsvm : ICSVM) (st : ICSVMStatus)
    (r : VMRef) (ns : List NetworkStatus) (pinfo : VMInfo)
    (hguard : reconcileInFlightTask env.taskState icsvm.status = (false, st))
    (hfind : env.findVM = .ok r)
    (hnet : env.getNetworkStatus = .ok ns)
    (hpow : env.getVMpower = .ok pinfo) (hpoff : pinfo.status = "STOPPED")
    (hfail : env.getVMdetails = .error () ∨ env.getHost = .error ()) :
    (ReconcileVM env icsvm).err = none ∧
    (ReconcileVM env icsvm).vm.state = .pending ∧
    RemoteCall.powerOnVM ∉ (ReconcileVM env icsvm).calls := by
  have hps : ∃ calls0, (∀ st0 : ICSVMStatus, reconcilePowerState env st0 =
      (false, none, calls0, st0)) ∧ RemoteCall.powerOnVM ∉ calls0 := by
    rcases hdet : env.getVMdetails with u | dinfo
    . cases u
      exact ⟨_, reconcilePowerState_details_failed env pinfo hpow hpoff hdet, by decide⟩
    . rcases hfail with h | h
      . rw [hdet] at h; exact absurd h (by simp)
      . exact ⟨_, reconcilePowerState_host_failed env pinfo dinfo hpow hpoff hdet h,
          by decide⟩
  obtain ⟨calls0, hps, hmem⟩ := hps
  simp only [ReconcileVM, hguard, hfind, reconcileNetworkStatus, hnet, hps]
  simp [reconcileUUID_state, hmem]

def envC10 : Env :=
  { baseEnv with getVMpower := .ok (sampleVMInfo "STOPPED")
                 getHost := .error () }

theorem C10_swallowed_read_failure_witness :
    (ReconcileVM envC10 sampleVM).err = none ∧
    (ReconcileVM envC10 sampleVM).vm.state = .pending ∧
    RemoteCall.powerOnVM ∉ (ReconcileVM envC10 sampleVM).calls :=
  C10_swallowed_read_failure envC10 sampleVM sampleStatus { value := "ref-1" } []
    (sampleVMInfo "STOPPED") rfl rfl rfl rfl rfl (Or.inr rfl)

/-! ## Claim C4 -/

/-- C4: a DestroyVM pass that finds the VM reported PoweredOn issues
power-off (and never delete) in that pass; when the power-off call
succeeds, its task id is stored as the TaskReference and the pass returns
phase Pending with no error.  Moreover, in any pass whatsoever, a delete
call is only issued when the VM was found and its reported power state is
not PoweredOn. -/
theorem C4_destroy_ordering (env : Env) (icsvm : ICSVM) (st : ICSVMStatus)
    (r : VMRef) (pinfo : VMInfo)
    (hguard : reconcileInFlightTask env.taskState icsvm.status = (false, st))
    (hfind : env.findVM = .ok r)
    (hpow : env.getVMpower = .ok pinfo) (hon : pinfo.status = "STARTED") :
    RemoteCall.powerOffVM ∈ (DestroyVM env icsvm).calls ∧
    RemoteCall.deleteVM ∉ (DestroyVM env icsvm).calls ∧
    (∀ task, env.powerOffVM = .ok task →
      (DestroyVM env icsvm).status.taskRef = task.taskId ∧
      (DestroyVM env icsvm).vm.state = .pending ∧
      (DestroyVM env icsvm).err = none) ∧
    (∀ (env' : Env) (icsvm' : ICSVM),
      RemoteCall.deleteVM ∈ (DestroyVM env' icsvm').calls →
      (∃ r', env'.findVM = .ok r') ∧
      (∃ ps, getPowerState env'.getVMpower = .ok ps ∧ ps ≠ .poweredOn)) := by
  have hpo := getPowerState_poweredOn env.getVMpower pinfo hpow hon
  refine ⟨?_, ?_, ?_, ?_⟩
  . simp only [DestroyVM, hguard, hfind, hpo]
    rcases hoff : env.powerOffVM with u | task <;> simp
  . simp only [DestroyVM, hguard, hfind, hpo]
    rcases hoff : env.powerOffVM with u | task <;> simp
  . intro task htask
    simp only [DestroyVM, hguard, hfind, hpo, htask]
    simp
  . intro env' icsvm' h
    rcases hg : reconcileInFlightTask env'.taskState icsvm'.status with ⟨b, st'⟩
    cases b
    . rcases hf : env'.findVM with e' | r'
      . simp only [DestroyVM, hg, hf] at h
        cases e' <;> simp [isNotFound] at h
      . rcases hq : getPowerState env'.getVMpower with e' | ps
        . simp only [DestroyVM, hg, hf, hq] at h
          simp at h
        . by_cases hps : ps = .poweredOn
          . subst hps
            simp only [DestroyVM, hg, hf, hq] at h
            rcases hoff : env'.powerOffVM with u | task <;> simp [hoff] at h
          . exact ⟨⟨r', rfl⟩, ⟨ps, rfl, hps⟩⟩
    . simp only [DestroyVM, hg] at h
      simp at h

theorem C4_destroy_ordering_witness :
    RemoteCall.powerOffVM ∈ (DestroyVM baseEnv sampleVM).calls ∧
    RemoteCall.deleteVM ∉ (DestroyVM baseEnv sampleVM).calls ∧
    (DestroyVM baseEnv sampleVM).status.taskRef = "task-1" ∧
    (DestroyVM baseEnv sampleVM).vm.state = .pending ∧
    (DestroyVM baseEnv sampleVM).err = none := by
  obtain ⟨h1, h2, h3, _⟩ := C4_destroy_ordering baseEnv sampleVM sampleStatus
    { value := "ref-1" } (sampleVMInfo "STARTED") rfl rfl rfl rfl
  obtain ⟨g1, g2, g3⟩ := h3 sampleTask rfl
  exact ⟨h1, h2, g1, g2, g3⟩

/-! ## Claim C9 -/

/-- C9: starting the discovery poller for a cluster identity already in the
registry is a no-op (registry unchanged, no goroutine started), so a
duplicate-free registry stays duplicate-free — at most one entry, hence at
most one running poller, per cluster identity; whenever a poller is
started its identity is in the registry the moment the critical section
returns; and the poller body removes the identity only after the
control-plane-initialized condition was observed true. -/
theorem C9_poller_singleton (cpi : Bool) (reg : List ClusterUID) (uid : ClusterUID) :
    (uid ∈ reg → reconcileICSClusterWhenAPIServerIsOnline cpi reg uid = (reg, false)) ∧
    (reg.Nodup → ((reconcileICSClusterWhenAPIServerIsOnline cpi reg uid).1).Nodup) ∧
    ((reconcileICSClusterWhenAPIServerIsOnline cpi reg uid).2 = true →
      uid ∈ (reconcileICSClusterWhenAPIServerIsOnline cpi reg uid).1) ∧
    (∀ (apiOnline initialized : Nat → Bool) (fuel : Nat),
      (pollerBody apiOnline initialized fuel reg uid).2.2 = true →
      ∃ i, initialized i = true) := by
  refine ⟨?_, ?_, ?_, ?_⟩
  . intro hmem
    unfold reconcileICSClusterWhenAPIServerIsOnline
    by_cases h1 : cpi
    . rw [if_pos h1]
    . rw [if_neg h1, if_pos hmem]
  . intro hnodup
    unfold reconcileICSClusterWhenAPIServerIsOnline
    by_cases h1 : cpi
    . rw [if_pos h1]; exact hnodup
    . rw [if_neg h1]
      by_cases h2 : uid ∈ reg
      . rw [if_pos h2]; exact hnodup
      . rw [if_neg h2]; exact List.nodup_cons.mpr ⟨h2, hnodup⟩
  . intro h
    unfold reconcileICSClusterWhenAPIServerIsOnline at h ⊢
    by_cases h1 : cpi
    . rw [if_pos h1] at h; simp at h
    . rw [if_neg h1] at h ⊢
      by_cases h2 : uid ∈ reg
      . rw [if_pos h2] at h; simp at h
      . rw [if_neg h2] at h ⊢; exact List.mem_cons_self uid reg
  . intro apiOnline initialized fuel h
    unfold pollerBody at h
    rcases h1 : pollUntil apiOnline fuel with _ | i
    . rw [h1] at h; simp at h
    . rw [h1] at h
      rcases h2 : pollUntil initialized fuel with _ | j
      . rw [h2] at h; simp at h
      . exact ⟨j, pollUntil_spec fuel initialized j h2⟩

theorem C9_poller_singleton_witness :
    reconcileICSClusterWhenAPIServerIsOnline false ["cluster-uid-1"] "cluster-uid-1" =
      (["cluster-uid-1"], false) :=
  (C9_poller_singleton false ["cluster-uid-1"] "cluster-uid-1").1 (by decide)

end ICS
